import Mathlib

/-!
Verification of the flashiq-ai-backend text-extraction pipeline.

The repository is a small JavaScript backend (Vercel-style API handlers).
`api/extract.js` contains two handler generations:

* the single-blob handler (extract.js lines 1-193): processes every uploaded
  file, appends per-file text (or a bracketed diagnostic message) to one
  combined string, normalizes whitespace and truncates to 12000 characters,
  responding `{ text }`;
* the multi-file handler (extract.js lines 194-362): processes every uploaded
  file into a per-file outcome `{file, ok, text}` or `{file, ok, error}`,
  responding `{ results }`.

`api/generate.js` filters model-produced flashcards.

Shallow-embedding conventions used throughout this file:

* JavaScript strings are modelled as Lean `String`; `slice`, `trim`,
  `toLowerCase`, `startsWith` and the regular-expression tests used by the code
  are re-implemented below on `List Char` (ASCII case folding, the whitespace
  class of `Char.isWhitespace`), which keeps every definition executable.
* Byte buffers (`Buffer`) are opaque `List Nat`.  External library calls
  (`pdf-parse`, `pptx-parser`, `AdmZip` byte-level unzipping, the OpenAI vision
  call, and Node's `Buffer.toString("utf8")`) are modelled as an explicit
  environment of functions; fallible calls return `Except String α` where the
  `error` value is the thrown `Error`'s message.
* The zip layer for the pptx extractor is modelled at the entry level: an
  `AdmZip` entry is a name together with its (already decoded) data.
-/

/-- Lowercasing as performed by `toLowerCase()` / the `i` regexp flag,
restricted to ASCII (which is all the code compares against). -/
def jsToLower (s : String) : String :=
  (s.data.map Char.toLower).asString

/-- Model of `String.prototype.startsWith(p)` (also used for `/^p/` tests). -/
def jsStartsWith (p s : String) : Bool :=
  p.data.isPrefixOf s.data

/-- Model of the anchored suffix regular-expression tests `/\.ext$/`. -/
def jsEndsWith (p s : String) : Bool :=
  p.data.isSuffixOf s.data

/-- Character-list version of trimming whitespace from both ends. -/
def trimChars (l : List Char) : List Char :=
  ((l.dropWhile Char.isWhitespace).reverse.dropWhile Char.isWhitespace).reverse

/-- Model of `String.prototype.trim()`. -/
def jsTrim (s : String) : String :=
  (trimChars s.data).asString

/-- Model of `String(err.message || err)` applied to a thrown `Error` object
carrying message `m`: a truthy message is used as-is, while an `Error` with an
empty message stringifies to its name, `"Error"`. -/
def errString (m : String) : String :=
  if m = "" then "Error" else m

/-- Opaque byte buffers (`Buffer` values). -/
abbrev Bytes := List Nat

/-- A parsed multipart file part, as produced by the Busboy readers in both
handler generations: `{ filename, mimeType, buffer }` (the readers default a
missing filename / mime type before constructing the record). -/
structure FileRec where
  filename : String
  mimeType : String
  buffer : Bytes
deriving DecidableEq

namespace ExtractV2

/-! The multi-file handler of `api/extract.js` (lines 194-362), which the
unnamed source `part_000` duplicates with the same per-file structure. -/

/-- Source: `const isImage = mt => /^image\//i.test(mt)` (extract.js line 243). -/
def isImage (mt : String) : Bool :=
  jsStartsWith "image/" (jsToLower mt)

/-- Source: `const isPdf = (mt, name) => mt === "application/pdf" || /\.pdf$/i.test(name)`
(extract.js line 244). -/
def isPdf (mt name : String) : Bool :=
  mt == "application/pdf" || jsEndsWith ".pdf" (jsToLower name)

/-- Source: `isPptx` (extract.js lines 245-246): the OOXML presentation MIME
type, or a `.pptx` filename suffix. -/
def isPptx (mt name : String) : Bool :=
  mt == "application/vnd.openxmlformats-officedocument.presentationml.presentation"
    || jsEndsWith ".pptx" (jsToLower name)

/-- Source: `const isTxt = (mt, name) => (mt || "").startsWith("text/") || /\.txt$/i.test(name)`
(extract.js line 247). Note the MIME prefix test is case sensitive in the code. -/
def isTxt (mt name : String) : Bool :=
  jsStartsWith "text/" mt || jsEndsWith ".txt" (jsToLower name)

/-- The closed set of content categories the handler's dispatch chain
distinguishes (spec section 3, `ContentCategory`). -/
inductive Category where
  | pdf
  | pptx
  | txt
  | image
  | unknown
deriving DecidableEq

/-- The handler's per-file dispatch (extract.js lines 331-343), extracted as a
classification function: the `if / else if` chain tests `isPdf`, `isPptx`,
`isTxt`, `isImage` in that order; a file matching none of them reaches
the final fallback with an empty primary text. -/
def classify (mt name : String) : Category :=
  if isPdf mt name then Category.pdf
  else if isPptx mt name then Category.pptx
  else if isTxt mt name then Category.txt
  else if isImage mt then Category.image
  else Category.unknown

/-- The MIME-type half of each dispatch predicate: the declared content type
alone mapped against the known-category table (`application/pdf`, the OOXML
presentation type, the `text/` prefix, the `image/` prefix). Used to state the
spec's claimed MIME-over-extension precedence. -/
def mimeCategory (mt : String) : Option Category :=
  if mt = "application/pdf" then some Category.pdf
  else if mt = "application/vnd.openxmlformats-officedocument.presentationml.presentation" then
    some Category.pptx
  else if jsStartsWith "text/" mt then some Category.txt
  else if jsStartsWith "image/" (jsToLower mt) then some Category.image
  else none

/-- The full (MIME or extension) predicate of each category, as tested by the
dispatch chain. The `unknown` arm is vacuous: the chain has no test for it. -/
def catMatches (c : Category) (mt name : String) : Bool :=
  match c with
  | Category.pdf => isPdf mt name
  | Category.pptx => isPptx mt name
  | Category.txt => isTxt mt name
  | Category.image => isImage mt
  | Category.unknown => true

/-- Position of a category in the handler's dispatch chain. -/
def chainIdx : Category → Nat
  | Category.pdf => 0
  | Category.pptx => 1
  | Category.txt => 2
  | Category.image => 3
  | Category.unknown => 4

/-- Per-file outcome pushed onto `results` (extract.js lines 350-354):
`{file, ok: true, text}` or `{file, ok: false, error}`. -/
inductive Outcome where
  | ok (file : String) (text : String)
  | err (file : String) (error : String)
deriving DecidableEq

/-- The `file` field of an outcome. -/
def Outcome.file : Outcome → String
  | Outcome.ok n _ => n
  | Outcome.err n _ => n

/-- External collaborators of the multi-file handler, modelled as functions of
the file's bytes:

* `pdfParse b` — `await pdfParse(buffer)` then `parsed.text || ""`; an `error`
  is the message of the exception a malformed PDF raises;
* `pptxExtract b` — `await extractFromPptx(buffer)` (AdmZip unzipping plus the
  slide scan; an `error` is e.g. AdmZip failing to open the archive);
* `ocr b mime` — `await ocrWithOpenAI(buffer, mime)`; an `error` is a missing
  key or a non-success response from the vision service;
* `utf8 b` — `buffer.toString("utf8")`, which never throws. -/
structure Env where
  pdfParse : Bytes → Except String String
  pptxExtract : Bytes → Except String String
  ocr : Bytes → String → Except String String
  utf8 : Bytes → String

/-- The primary (category-appropriate) extraction of one file: the
`if / else if` chain of extract.js lines 331-343, producing the value of
`text` before the fallback check, or the exception the chain raised. -/
def primaryResult (env : Env) (f : FileRec) : Except String String :=
  if isPdf f.mimeType f.filename then (env.pdfParse f.buffer).map jsTrim
  else if isPptx f.mimeType f.filename then (env.pptxExtract f.buffer).map jsTrim
  else if isTxt f.mimeType f.filename then Except.ok (env.utf8 f.buffer)
  else if isImage f.mimeType then env.ocr f.buffer f.mimeType
  else Except.ok ""

/-- One iteration of the per-file loop (extract.js lines 327-356), returning
the pushed outcome together with the number of fallback OCR calls
(`ocrWithOpenAI(f.buffer, "image/jpeg")` at line 347) the iteration performed.
A raised exception anywhere in the body is caught at line 353 and pushed as
`{ok: false, error: String(err.message || err)}`. The final
`if (text.trim()) ... else ...` push (lines 350-351) is written once per path:
when no fallback ran, `text.trim()` is already known non-empty. -/
def processFileT (env : Env) (f : FileRec) : Outcome × Nat :=
  match primaryResult env f with
  | Except.error e => (Outcome.err f.filename (errString e), 0)
  | Except.ok text =>
    if jsTrim text = "" then
      match env.ocr f.buffer "image/jpeg" with
      | Except.error e => (Outcome.err f.filename (errString e), 1)
      | Except.ok t2 =>
        if jsTrim t2 = "" then (Outcome.err f.filename "No extractable text found", 1)
        else (Outcome.ok f.filename t2, 1)
    else (Outcome.ok f.filename text, 0)

/-- The outcome pushed for one file. -/
def processFile (env : Env) (f : FileRec) : Outcome :=
  (processFileT env f).1

/-- The handler's response payload (extract.js lines 322-361): a 400 error for
an empty file list, otherwise `{ results }`. -/
inductive Response where
  | badRequest (error : String)
  | okResults (results : List Outcome)
deriving DecidableEq

/-- The multi-file handler on an already parsed file list (extract.js
lines 317-362). -/
def handler (env : Env) (files : List FileRec) : Response :=
  if files.length = 0 then Response.badRequest "No files uploaded"
  else Response.okResults (files.map (processFile env))

end ExtractV2

namespace Pptx

/-! The pptx extractor `extractFromPptx` of the multi-file handler
(extract.js lines 276-315), modelled at the level of the already unzipped
archive entries. -/

/-- One AdmZip entry: its `entryName` and the result of `getData()`
(for slide XML entries, already decoded as UTF-8; for media entries, an opaque
token standing for the image bytes). -/
structure ZipEntry where
  entryName : String
  data : String
deriving DecidableEq

/-- The digits between `ppt/slides/slide` (16 characters) and `.xml`
(4 characters) of an entry name. -/
def slideMid (name : String) : List Char :=
  let l := name.data.drop 16
  l.take (l.length - 4)

/-- Model of the filter `/^ppt\/slides\/slide\d+\.xml$/.test(e.entryName)`
(extract.js line 282). -/
def isSlideEntry (name : String) : Bool :=
  ("ppt/slides/slide".data.isPrefixOf name.data)
    && (".xml".data.isSuffixOf name.data)
    && (slideMid name ≠ [])
    && (slideMid name).all Char.isDigit

/-- Value of a digit string, as `parseInt(digits, 10)` computes it. -/
def digitsVal (l : List Char) : Nat :=
  l.foldl (fun n c => n * 10 + (c.toNat - 48)) 0

/-- The numeric slide index the sort comparator extracts:
`parseInt(entryName.match(/slide(\d+)\.xml/)?.[1] || "0", 10)`
(extract.js lines 284-285). On the names admitted by `isSlideEntry` this is
exactly the value of the digits between the prefix and `.xml`. -/
def slideKey (e : ZipEntry) : Nat :=
  digitsVal (slideMid e.entryName)

/-- The filtered and numerically sorted slide entries (extract.js
lines 281-287). JavaScript's `Array.prototype.sort` is a stable sort, so with
the comparator `na - nb` it coincides with stable insertion sort by
ascending key. -/
def slideOrder (entries : List ZipEntry) : List ZipEntry :=
  List.insertionSort (fun a b => slideKey a ≤ slideKey b)
    (entries.filter fun e => isSlideEntry e.entryName)

/-- Character list of the opening tag `<a:t>`. -/
def openTag : List Char := "<a:t>".data

/-- Character list of the closing tag `</a:t>`. -/
def closeTag : List Char := "</a:t>".data

/-- Lazy capture of `(.*?)</a:t>` starting right after an opening tag: scan
forward for the earliest closing tag, failing on a newline or the end of input
(`.` does not match newlines). Returns the capture and the remaining input
after the closing tag. -/
def captureRun : List Char → Option (List Char × List Char)
  | [] => none
  | c :: rest =>
    if closeTag.isPrefixOf (c :: rest) then some ([], (c :: rest).drop 6)
    else if c = '\n' then none
    else
      match captureRun rest with
      | some p => some (c :: p.1, p.2)
      | none => none

/-- Global scan for `/<a:t>(.*?)<\/a:t>/g` (extract.js line 292): at each
position try to start a match; on success resume after the match, on failure
advance one character. `fuel` bounds the recursion; every step consumes at
least one character, so fuel equal to the input length is always enough. -/
def scanAT : Nat → List Char → List String
  | 0, _ => []
  | _, [] => []
  | fuel + 1, c :: rest =>
    if openTag.isPrefixOf (c :: rest) then
      match captureRun ((c :: rest).drop 5) with
      | some p => p.1.asString :: scanAT fuel p.2
      | none => scanAT fuel rest
    else scanAT fuel rest

/-- All captures of the text-run pattern in one slide's XML. -/
def extractAT (xml : String) : List String :=
  scanAT xml.data.length xml.data

/-- Text of one slide entry:
`matches.map(m => m[1]).join(" ").trim()` (extract.js line 293). -/
def slideRunText (e : ZipEntry) : String :=
  jsTrim (String.intercalate " " (extractAT e.data))

/-- Model of the media filter
`/^ppt\/media\/.+\.(png|jpe?g|webp)$/i.test(e.entryName)`
(extract.js line 298): case-insensitive prefix `ppt/media/` (10 characters),
at least one further character, and one of the image extensions. -/
def isMediaImage (name : String) : Bool :=
  let lower := jsToLower name
  jsStartsWith "ppt/media/" lower
    && ((jsEndsWith ".png" lower && decide (10 + 4 < lower.length))
      || (jsEndsWith ".jpg" lower && decide (10 + 4 < lower.length))
      || (jsEndsWith ".jpeg" lower && decide (10 + 5 < lower.length))
      || (jsEndsWith ".webp" lower && decide (10 + 5 < lower.length)))

/-- Source: `guessMimeFromName` (extract.js lines 310-315). -/
def guessMimeFromName (name : String) : String :=
  if jsEndsWith ".png" (jsToLower name) then "image/png"
  else if jsEndsWith ".jpg" (jsToLower name) || jsEndsWith ".jpeg" (jsToLower name) then
    "image/jpeg"
  else if jsEndsWith ".webp" (jsToLower name) then "image/webp"
  else "image/jpeg"

/-- Source: `extractFromPptx` (extract.js lines 276-308) on the unzipped
entries: the non-empty slide texts in numeric slide order, then the non-empty
OCR output of each media image (OCR errors on a single image are swallowed),
joined with blank lines. `ocr` receives the entry data and the guessed MIME
type. -/
def extractFromPptx (ocr : String → String → Except String String)
    (entries : List ZipEntry) : String :=
  let pieces := ((slideOrder entries).map slideRunText).filter fun t => t ≠ ""
  let mediaPieces := (entries.filter fun e => isMediaImage e.entryName).filterMap fun e =>
    match ocr e.data (guessMimeFromName e.entryName) with
    | Except.ok t => if t ≠ "" then some t else none
    | Except.error _ => none
  String.intercalate "\n\n" (pieces ++ mediaPieces)

end Pptx

namespace ExtractV1

/-! The single-blob handler of `api/extract.js` (lines 99-193): every file
appends to `combinedText`, which is then whitespace-normalized and truncated
to 12000 characters. -/

/-- Source: `const name = f.filename || "upload.bin"` (extract.js line 113). -/
def nameOf (f : FileRec) : String :=
  if f.filename = "" then "upload.bin" else f.filename

/-- Source: `const mime = f.mime || "application/octet-stream"`
(extract.js line 115). -/
def mimeOf (f : FileRec) : String :=
  if f.mimeType = "" then "application/octet-stream" else f.mimeType

/-- Source: `const ext = (name.split(".").pop() || "").toLowerCase()`
(extract.js line 114): the segment after the last dot (the whole name when it
has no dot), lowercased. -/
def fileExt (name : String) : String :=
  jsToLower ((name.data.reverse.takeWhile fun c => c ≠ '.').reverse.asString)

/-- External collaborators of the single-blob handler:
`pdfParse b` yields `data.text || ""`; `readPptx b` yields the deck's
`(s.text || "")` values (a deck without a slides array is the empty list);
`ocr b mime` is the Vision call (its result is not yet trimmed);
`utf8 b` is `buffer.toString("utf8")`. -/
structure Env where
  pdfParse : Bytes → Except String String
  readPptx : Bytes → Except String (List String)
  ocr : Bytes → String → Except String String
  utf8 : Bytes → String

/-- The string one file appends to `combinedText` (extract.js lines 112-181):
each branch contributes `"\n\n"` followed by extracted text or a bracketed
diagnostic message. The final catch-all branch is `buffer.toString("utf8")`,
which never throws, so its catch arm is unreachable. -/
def appendFile (env : Env) (f : FileRec) : String :=
  let name := nameOf f
  let ext := fileExt name
  let mime := mimeOf f
  if ext = "pdf" ∨ mime = "application/pdf" then
    match env.pdfParse f.buffer with
    | Except.ok t => "\n\n" ++ jsTrim t
    | Except.error _ => "\n\n[Could not parse PDF: " ++ name ++ "]"
  else if ext = "ppt" ∨ ext = "pptx" then
    match env.readPptx f.buffer with
    | Except.ok slides =>
      let slideText := String.intercalate "\n" (slides.map jsTrim)
      if slideText ≠ "" then "\n\n" ++ slideText
      else "\n\n[No visible text found in " ++ name ++ "]"
    | Except.error _ =>
      "\n\n[Could not parse " ++ name ++ " directly. " ++
        "Tip: Export slides as PDF and re-upload for best results.]"
  else if jsStartsWith "image/" mime then
    match env.ocr f.buffer mime with
    | Except.ok t => "\n\n" ++ jsTrim t
    | Except.error _ => "\n\n[Could not OCR image: " ++ name ++ "]"
  else if ext = "txt" ∨ mime = "text/plain" then
    "\n\n" ++ jsTrim (env.utf8 f.buffer)
  else if ext = "docx" then
    "\n\n[.docx parsing not implemented. Convert to PDF or TXT.]"
  else
    "\n\n" ++ jsTrim (env.utf8 f.buffer)

/-- The `combinedText` accumulator after the loop (extract.js lines 109-181). -/
def combinedText (env : Env) (files : List FileRec) : String :=
  files.foldl (fun acc f => acc ++ appendFile env f) ""

/-- Emit a run of `n` pending newlines, collapsing runs of three or more to
exactly two (`/\n{3,}/g` replaced by `"\n\n"`). -/
def emitNL (n : Nat) : List Char :=
  List.replicate (min n 2) '\n'

/-- One pass over the characters tracking the length of the current newline
run. -/
def collapseNLAux : Nat → List Char → List Char
  | n, [] => emitNL n
  | n, c :: rest =>
    if c = '\n' then collapseNLAux (n + 1) rest
    else emitNL n ++ c :: collapseNLAux 0 rest

/-- Source: `combinedText.replace(/\r/g, "").replace(/\n{3,}/g, "\n\n").trim()`
(extract.js lines 184-185). -/
def cleanText (s : String) : String :=
  jsTrim (collapseNLAux 0 (s.data.filter fun c => c ≠ '\r')).asString

/-- The `{ text }` payload of the single-blob handler:
`cleaned.slice(0, 12000)` (extract.js line 186). -/
def handlerText (env : Env) (files : List FileRec) : String :=
  ((cleanText (combinedText env files)).data.take 12000).asString

end ExtractV1

namespace Generate

/-! The card filter of `api/generate.js` (lines 64-72). -/

/-- One flashcard `{front, back}` from the model's JSON. -/
structure GenCard where
  front : String
  back : String
deriving DecidableEq

/-- Source: `data.cards.filter(c => c?.front && c?.back)` (generate.js
line 71): JavaScript string truthiness keeps exactly the entries whose two
fields are non-empty. -/
def filterCards (cards : List GenCard) : List GenCard :=
  cards.filter fun c => c.front != "" && c.back != ""

/-- Source: `Array.isArray(data?.cards) ? data.cards.filter(...) : []`
(generate.js line 71): a missing or non-array `cards` value yields the empty
list. -/
def responseCards : Option (List GenCard) → List GenCard
  | none => []
  | some cards => filterCards cards

end Generate

/-! Concrete fixtures used by witnesses and counterexamples. -/

/-- Concrete environment: malformed PDFs, empty presentations, unavailable
vision service, text buffers decoding to `"hello"`. -/
def sampleEnv : ExtractV2.Env :=
  { pdfParse := fun _ => Except.error "bad pdf"
    pptxExtract := fun _ => Except.ok ""
    ocr := fun _ _ => Except.error "ServiceUnavailable"
    utf8 := fun _ => "hello" }

/-- A PDF-classified upload. -/
def samplePdf : FileRec := ⟨"a.pdf", "application/pdf", []⟩

/-- A plain-text upload. -/
def sampleTxt : FileRec := ⟨"b.txt", "text/plain", []⟩

/-- An upload matching no category. -/
def sampleUnknown : FileRec := ⟨"x.bin", "application/octet-stream", []⟩

/-- Concrete single-blob environment whose PDF parser always fails. -/
def envC9 : ExtractV1.Env :=
  { pdfParse := fun _ => Except.error "Invalid PDF structure"
    readPptx := fun _ => Except.error "nope"
    ocr := fun _ _ => Except.error "nope"
    utf8 := fun _ => "" }

/-- A PDF upload for the single-blob handler. -/
def fileC9 : FileRec := ⟨"notes.pdf", "application/pdf", []⟩

instance : IsTotal Pptx.ZipEntry (fun a b => Pptx.slideKey a ≤ Pptx.slideKey b) :=
  ⟨fun x y => Nat.le_total (Pptx.slideKey x) (Pptx.slideKey y)⟩

instance : IsTrans Pptx.ZipEntry (fun a b => Pptx.slideKey a ≤ Pptx.slideKey b) :=
  ⟨fun _ _ _ => Nat.le_trans⟩

/-! Helper lemmas. -/

/-- The stringification of a caught error is never empty. -/
theorem errString_ne_empty (m : String) : errString m ≠ "" := by
  unfold errString
  split
  · decide
  · assumption

/-- Every pushed outcome reports the file it belongs to. -/
theorem ExtractV2.processFile_file (env : ExtractV2.Env) (f : FileRec) :
    (ExtractV2.processFile env f).file = f.filename := by
  unfold ExtractV2.processFile ExtractV2.processFileT
  cases hp : ExtractV2.primaryResult env f with
  | error e => simp [ExtractV2.Outcome.file]
  | ok t =>
    by_cases ht : jsTrim t = ""
    · simp only [ht, if_pos rfl]
      cases ho : env.ocr f.buffer "image/jpeg" with
      | error e => simp [ExtractV2.Outcome.file]
      | ok t2 =>
        by_cases h2 : jsTrim t2 = "" <;> simp [h2, ExtractV2.Outcome.file]
    · simp [ht, ExtractV2.Outcome.file]

/-- C1: for every multipart request with at least one file part, the
multi-file handler responds with a results list of exactly one outcome per
input file, in input order (the i-th outcome is the processing of the i-th
file and names that file), each outcome a success with text or a failure with
a reason. -/
theorem extract_multi_results_count_order (env : ExtractV2.Env) (files : List FileRec)
    (h : files ≠ []) :
    ExtractV2.handler env files
        = ExtractV2.Response.okResults (files.map (ExtractV2.processFile env)) ∧
    (files.map (ExtractV2.processFile env)).length = files.length ∧
    (∀ i (hi : i < files.length),
      (files.map (ExtractV2.processFile env))[i]?
          = some (ExtractV2.processFile env files[i]) ∧
      (ExtractV2.processFile env files[i]).file = files[i].filename) ∧
    ∀ o ∈ files.map (ExtractV2.processFile env),
      (∃ n t, o = ExtractV2.Outcome.ok n t) ∨ ∃ n e, o = ExtractV2.Outcome.err n e := by
  refine ⟨?_, List.length_map _ _, ?_, ?_⟩
  · simp [ExtractV2.handler, List.length_eq_zero, h]
  · intro i hi
    refine ⟨?_, ExtractV2.processFile_file env files[i]⟩
    simp [List.getElem?_map, List.getElem?_eq_getElem hi]
  · intro o ho
    cases o with
    | ok n t => exact Or.inl ⟨n, t, rfl⟩
    | err n e => exact Or.inr ⟨n, e, rfl⟩

theorem extract_multi_results_count_order_witness :
    ([samplePdf, sampleTxt] : List FileRec) ≠ [] ∧
    ExtractV2.handler sampleEnv [samplePdf, sampleTxt]
      = ExtractV2.Response.okResults
          ([samplePdf, sampleTxt].map (ExtractV2.processFile sampleEnv)) := by
  have h : ([samplePdf, sampleTxt] : List FileRec) ≠ [] := List.cons_ne_nil _ _
  exact ⟨h, (extract_multi_results_count_order sampleEnv _ h).1⟩

/-- C2: a file whose buffer the PDF parser rejects yields a failure outcome
carrying the parser's message; the handler still returns a results list in
which every file of the request, siblings included, receives the outcome of
its own processing alone. (The embedding is total, so no exception escapes the
handler by construction.) -/
theorem extract_malformed_pdf_isolation (env : ExtractV2.Env) (f : FileRec) (e : String)
    (hpdf : ExtractV2.isPdf f.mimeType f.filename = true)
    (herr : env.pdfParse f.buffer = Except.error e) :
    ExtractV2.processFile env f = ExtractV2.Outcome.err f.filename (errString e) ∧
    ∀ (files : List FileRec), files ≠ [] →
      ∃ rs, ExtractV2.handler env files = ExtractV2.Response.okResults rs ∧
        ∀ i (hi : i < files.length),
          rs[i]? = some (ExtractV2.processFile env files[i]) := by
  constructor
  · simp [ExtractV2.processFile, ExtractV2.processFileT, ExtractV2.primaryResult, hpdf, herr,
      Except.map]
  · intro files hne
    refine ⟨files.map (ExtractV2.processFile env), ?_, ?_⟩
    · simp [ExtractV2.handler, List.length_eq_zero, hne]
    · intro i hi
      simp [List.getElem?_map, List.getElem?_eq_getElem hi]

theorem extract_malformed_pdf_isolation_witness :
    ExtractV2.isPdf "application/pdf" "a.pdf" = true ∧
    sampleEnv.pdfParse samplePdf.buffer = Except.error "bad pdf" ∧
    ExtractV2.processFile sampleEnv samplePdf
      = ExtractV2.Outcome.err "a.pdf" (errString "bad pdf") := by
  refine ⟨by decide, rfl, ?_⟩
  exact (extract_malformed_pdf_isolation sampleEnv samplePdf "bad pdf" (by decide) rfl).1

/-- C3: the single-blob handler's returned text never exceeds 12000
characters, for every environment and every input file list. -/
theorem extract_blob_length_cap (env : ExtractV1.Env) (files : List FileRec) :
    (ExtractV1.handlerText env files).length ≤ 12000 := by
  have h : (ExtractV1.handlerText env files).length
      = ((ExtractV1.cleanText (ExtractV1.combinedText env files)).data.take 12000).length := rfl
  rw [h, List.length_take]
  exact min_le_left _ _

/-- C4: whenever the category-appropriate primary extraction of a file
returns (rather than throws) text that is empty after trimming, the per-file
loop performs exactly one fallback vision call for that file. -/
theorem extract_fallback_ocr_once (env : ExtractV2.Env) (f : FileRec) (t : String)
    (hok : ExtractV2.primaryResult env f = Except.ok t)
    (hempty : jsTrim t = "") :
    (ExtractV2.processFileT env f).2 = 1 := by
  unfold ExtractV2.processFileT
  rw [hok]
  simp only [hempty, if_pos rfl]
  cases env.ocr f.buffer "image/jpeg" with
  | error e => rfl
  | ok t2 => by_cases h2 : jsTrim t2 = "" <;> simp [h2]

theorem extract_fallback_ocr_once_witness :
    ExtractV2.primaryResult sampleEnv sampleUnknown = Except.ok "" ∧
    jsTrim "" = "" ∧
    (ExtractV2.processFileT sampleEnv sampleUnknown).2 = 1 := by
  refine ⟨rfl, by decide, ?_⟩
  exact extract_fallback_ocr_once sampleEnv sampleUnknown "" rfl (by decide)

/-- C5: the pptx extractor emits slide entries in ascending numeric order of
the slide index parsed from the entry name (for every archive, the processed
slide list is pairwise ordered by that index), not lexicographic order: an
archive holding `slide10.xml` before `slide2.xml` yields slide 2's text before
slide 10's text. -/
theorem extract_pptx_slide_numeric_order :
    (∀ entries : List Pptx.ZipEntry,
      List.Pairwise (fun a b => Pptx.slideKey a ≤ Pptx.slideKey b)
        (Pptx.slideOrder entries)) ∧
    Pptx.extractFromPptx (fun _ _ => Except.error "ServiceUnavailable")
        [⟨"ppt/slides/slide10.xml", "<a:t>Ten</a:t>"⟩,
         ⟨"ppt/slides/slide2.xml", "<a:t>Two</a:t>"⟩]
      = "Two\n\nTen" := by
  constructor
  · intro entries
    exact List.sorted_insertionSort (fun a b => Pptx.slideKey a ≤ Pptx.slideKey b) _
  · decide

/-- C6: a file the dispatch chain classifies as plain text has as its primary
extraction exactly the UTF-8 decoding of its buffer, and (when that decoding
is not whitespace-only, so that no fallback fires) the pushed outcome carries
that decoding unchanged. -/
theorem extract_plaintext_roundtrip (env : ExtractV2.Env) (f : FileRec)
    (hc : ExtractV2.classify f.mimeType f.filename = ExtractV2.Category.txt)
    (hnb : jsTrim (env.utf8 f.buffer) ≠ "") :
    ExtractV2.primaryResult env f = Except.ok (env.utf8 f.buffer) ∧
    ExtractV2.processFile env f = ExtractV2.Outcome.ok f.filename (env.utf8 f.buffer) := by
  unfold ExtractV2.classify at hc
  split_ifs at hc with h1 h2 h3 h4
  try simp at hc
  have hprim : ExtractV2.primaryResult env f = Except.ok (env.utf8 f.buffer) := by
    unfold ExtractV2.primaryResult
    simp [h1, h2, h3]
  refine ⟨hprim, ?_⟩
  unfold ExtractV2.processFile ExtractV2.processFileT
  rw [hprim]
  simp [hnb]

theorem extract_plaintext_roundtrip_witness :
    ExtractV2.classify sampleTxt.mimeType sampleTxt.filename = ExtractV2.Category.txt ∧
    jsTrim (sampleEnv.utf8 sampleTxt.buffer) ≠ "" ∧
    ExtractV2.processFile sampleEnv sampleTxt = ExtractV2.Outcome.ok "b.txt" "hello" := by
  refine ⟨by decide, by decide, ?_⟩
  exact (extract_plaintext_roundtrip sampleEnv sampleTxt (by decide) (by decide)).2

/-- C7 counterexample: the declared MIME type `text/plain` maps to the known
plain-text category, yet a file with that declared type and filename
`notes.pdf` is classified as PDF — the filename extension overrides a known
declared MIME type, contradicting the claimed MIME-over-extension precedence. -/
theorem classify_mime_precedence_cex :
    ExtractV2.mimeCategory "text/plain" = some ExtractV2.Category.txt ∧
    ExtractV2.classify "text/plain" "notes.pdf" = ExtractV2.Category.pdf ∧
    ExtractV2.Category.pdf ≠ ExtractV2.Category.txt := by
  refine ⟨by decide, by decide, by decide⟩

/-- C7 amended: classification tests the categories in the fixed chain order
PDF, Presentation, PlainText, Image, each by declared MIME type OR filename
extension with equal standing; the declared MIME type's category is selected
exactly when no earlier category in the chain matches via either test, so the
extension is not subordinate to the MIME type. -/
theorem classify_chain_order (mt name : String) (c : ExtractV2.Category)
    (hm : ExtractV2.mimeCategory mt = some c)
    (he : ∀ c2, ExtractV2.chainIdx c2 < ExtractV2.chainIdx c →
      ExtractV2.catMatches c2 mt name = false) :
    ExtractV2.classify mt name = c := by
  unfold ExtractV2.mimeCategory at hm
  split_ifs at hm with h1 h2 h3 h4 <;> injection hm with hm <;> subst hm
  · have : ExtractV2.isPdf mt name = true := by
      unfold ExtractV2.isPdf
      subst h1
      simp
    simp [ExtractV2.classify, this]
  · have hpdf : ExtractV2.isPdf mt name = false := he ExtractV2.Category.pdf (by decide)
    have : ExtractV2.isPptx mt name = true := by
      unfold ExtractV2.isPptx
      subst h2
      simp
    simp [ExtractV2.classify, hpdf, this]
  · have hpdf : ExtractV2.isPdf mt name = false := he ExtractV2.Category.pdf (by decide)
    have hpp : ExtractV2.isPptx mt name = false := he ExtractV2.Category.pptx (by decide)
    have : ExtractV2.isTxt mt name = true := by
      unfold ExtractV2.isTxt
      simp [h3]
    simp [ExtractV2.classify, hpdf, hpp, this]
  · have hpdf : ExtractV2.isPdf mt name = false := he ExtractV2.Category.pdf (by decide)
    have hpp : ExtractV2.isPptx mt name = false := he ExtractV2.Category.pptx (by decide)
    have htx : ExtractV2.isTxt mt name = false := he ExtractV2.Category.txt (by decide)
    have : ExtractV2.isImage mt = true := by
      unfold ExtractV2.isImage
      exact h4
    simp [ExtractV2.classify, hpdf, hpp, htx, this]

theorem classify_chain_order_witness :
    ExtractV2.mimeCategory "text/plain" = some ExtractV2.Category.txt ∧
    ExtractV2.classify "text/plain" "a.bin" = ExtractV2.Category.txt := by
  refine ⟨by decide,
    classify_chain_order "text/plain" "a.bin" ExtractV2.Category.txt (by decide) ?_⟩
  intro c2 h
  revert h
  cases c2 <;> decide

/-- C8 counterexample: when the model returns 21 cards whose two fields are
all non-empty, the generation endpoint returns all 21 of them — no maximum
card count (such as the documented 20) is enforced. -/
theorem generate_cards_cap_cex :
    (Generate.responseCards (some (List.replicate 21 ⟨"q", "a"⟩))).length = 21 ∧
    ¬ (Generate.responseCards (some (List.replicate 21 ⟨"q", "a"⟩))).length ≤ 20 := by
  refine ⟨by decide, by decide⟩

/-- C8 amended: every card the generation endpoint returns has a non-empty
front field and a non-empty back field; no maximum card count is enforced, so
the number of returned cards is the number of valid entries the model
produced. -/
theorem generate_cards_nonempty_fields (data : Option (List Generate.GenCard)) :
    ∀ c ∈ Generate.responseCards data, c.front ≠ "" ∧ c.back ≠ "" := by
  intro c hc
  cases data with
  | none => simp [Generate.responseCards] at hc
  | some cards =>
    simp only [Generate.responseCards, Generate.filterCards, List.mem_filter] at hc
    have := hc.2
    simp only [Bool.and_eq_true, bne_iff_ne, ne_eq] at this
    exact this

theorem generate_cards_nonempty_fields_witness :
    (⟨"q", "a"⟩ : Generate.GenCard) ∈ Generate.responseCards (some [⟨"q", "a"⟩]) ∧
    (⟨"q", "a"⟩ : Generate.GenCard).front ≠ "" ∧ (⟨"q", "a"⟩ : Generate.GenCard).back ≠ "" := by
  refine ⟨by decide, ?_⟩
  exact generate_cards_nonempty_fields (some [⟨"q", "a"⟩]) ⟨"q", "a"⟩ (by decide)

/-- C9 counterexample: in the single-blob handler a file whose PDF parse fails
is not silently omitted — the returned blob for a request holding only that
file is exactly the bracketed diagnostic naming the file, so failure text does
appear in the concatenated output. -/
theorem blob_failure_message_cex :
    ExtractV1.handlerText envC9 [fileC9] = "[Could not parse PDF: notes.pdf]" ∧
    List.IsInfix "notes.pdf".data (ExtractV1.handlerText envC9 [fileC9]).data ∧
    ExtractV1.handlerText envC9 [fileC9] ≠ "" := by
  refine ⟨by decide, by decide, by decide⟩

/-- C9 amended: in the single-blob mode a failed file is not omitted; its
contribution to the concatenated text is a bracketed diagnostic message — a
failed PDF parse contributes `[Could not parse PDF: name]`, and an
unsupported `.docx` file contributes the fixed not-implemented notice. -/
theorem blob_failure_message_contribution :
    (∀ (env : ExtractV1.Env) (f : FileRec) (e : String),
      (ExtractV1.fileExt (ExtractV1.nameOf f) = "pdf" ∨
        ExtractV1.mimeOf f = "application/pdf") →
      env.pdfParse f.buffer = Except.error e →
      ExtractV1.appendFile env f
        = "\n\n[Could not parse PDF: " ++ ExtractV1.nameOf f ++ "]") ∧
    (∀ (env : ExtractV1.Env) (f : FileRec),
      ExtractV1.fileExt (ExtractV1.nameOf f) = "docx" →
      ExtractV1.mimeOf f ≠ "application/pdf" →
      jsStartsWith "image/" (ExtractV1.mimeOf f) = false →
      ExtractV1.mimeOf f ≠ "text/plain" →
      ExtractV1.appendFile env f
        = "\n\n[.docx parsing not implemented. Convert to PDF or TXT.]") := by
  constructor
  · intro env f e hcond herr
    unfold ExtractV1.appendFile
    rw [if_pos hcond, herr]
  · intro env f hext hm1 hm2 hm3
    simp only [ExtractV1.appendFile]
    simp [hext, hm1, hm2, hm3]

theorem blob_failure_message_contribution_witness :
    ExtractV1.appendFile envC9 fileC9 = "\n\n[Could not parse PDF: notes.pdf]" ∧
    ExtractV1.appendFile envC9 ⟨"a.docx", "application/octet-stream", []⟩
      = "\n\n[.docx parsing not implemented. Convert to PDF or TXT.]" := by
  constructor
  · exact blob_failure_message_contribution.1 envC9 fileC9 "Invalid PDF structure"
      (Or.inr rfl) rfl
  · exact blob_failure_message_contribution.2 envC9 ⟨"a.docx", "application/octet-stream", []⟩
      rfl (by decide) (by decide) (by decide)

/-- C10: in the multi-file response, every outcome marked ok carries text that
is non-empty after trimming, and every outcome marked as a failure carries a
non-empty error string. -/
theorem extract_outcome_invariant (env : ExtractV2.Env) (f : FileRec) :
    (∀ n t, ExtractV2.processFile env f = ExtractV2.Outcome.ok n t → jsTrim t ≠ "") ∧
    (∀ n e, ExtractV2.processFile env f = ExtractV2.Outcome.err n e → e ≠ "") := by
  unfold ExtractV2.processFile ExtractV2.processFileT
  cases hp : ExtractV2.primaryResult env f with
  | error e0 =>
    constructor
    · intro n t h
      simp at h
    · intro n e h
      simp at h
      rw [← h.2]
      exact errString_ne_empty e0
  | ok t0 =>
    by_cases ht : jsTrim t0 = ""
    · simp only [ht, if_pos rfl]
      cases ho : env.ocr f.buffer "image/jpeg" with
      | error e0 =>
        constructor
        · intro n t h
          simp at h
        · intro n e h
          simp at h
          rw [← h.2]
          exact errString_ne_empty e0
      | ok t2 =>
        by_cases h2 : jsTrim t2 = ""
        · constructor
          · intro n t h
            simp [h2] at h
          · intro n e h
            simp [h2] at h
            rw [← h.2]
            decide
        · constructor
          · intro n t h
            simp [h2] at h
            rw [← h.2]
            exact h2
          · intro n e h
            simp [h2] at h
    · constructor
      · intro n t h
        simp [ht] at h
        rw [← h.2]
        exact ht
      · intro n e h
        simp [ht] at h

theorem extract_outcome_invariant_witness :
    ExtractV2.processFile sampleEnv sampleTxt = ExtractV2.Outcome.ok "b.txt" "hello" ∧
    jsTrim "hello" ≠ "" := by
  refine ⟨by decide, ?_⟩
  exact (extract_outcome_invariant sampleEnv sampleTxt).1 "b.txt" "hello" (by decide)
